import Mathlib

/-!
# Verification of containerd CRI image-pull resolution logic

Shallow embedding of the image-pull resolution core of the containerd CRI
server: scheme inference for registry hosts, mirror/endpoint resolution,
pull-credential parsing, per-pod snapshotter selection, image labeling and
image status assembly, together with proofs of the stated properties.

Functions whose implementation is not part of the given sources (only their
tests are) are modelled from the specification, as indicated by their doc
comments; test vectors from the in-tree test files are re-checked against
each model.
-/

namespace ContainerdCRI

/-! ## Scheme Inferrer (defaultScheme) -/

/-- Modelled from the spec: the port-stripping step of the Scheme Inferrer
(the implementation of `defaultScheme` is not among the given sources).
A bracketed host `[h]:port` yields `h` provided the port part carries no
further colon; an unbracketed host with exactly one colon is split at it;
any other shape has no recognizable port and fails. -/
def splitHostPort (cs : List Char) : Option (List Char) :=
  match cs with
  | '[' :: rest =>
      match rest.dropWhile (fun c => c ≠ ']') with
      | ']' :: ':' :: p =>
          if ':' ∈ p then none else some (rest.takeWhile (fun c => c ≠ ']'))
      | _ => none
  | _ =>
      if cs.count ':' = 1 then some (cs.takeWhile (fun c => c ≠ ':')) else none

/-- Modelled from the spec: removing a matched pair of square brackets
around a host, as the Scheme Inferrer does before the loopback test. -/
def stripBrackets (cs : List Char) : List Char :=
  match cs with
  | '[' :: rest => if rest.getLast? = some ']' then rest.dropLast else cs
  | _ => cs

/-- The three lexical loopback hosts recognized by the Scheme Inferrer. -/
def isLoopbackHost (cs : List Char) : Bool :=
  cs == "localhost".data || cs == "127.0.0.1".data || cs == "::1".data

/-- Modelled from the spec: `defaultScheme` (implementation absent from the
given sources, pinned by `TestDefaultScheme`).  Strip the port; strip
brackets; if the remainder is exactly `localhost`, `127.0.0.1` or `::1`
return "http", otherwise "https". -/
def defaultScheme (host : String) : String :=
  let h := stripBrackets ((splitHostPort host.data).getD host.data)
  if isLoopbackHost h then "http" else "https"

/-- The claim's enumerated loopback-like shapes: `localhost`, `127.0.0.1`
and `::1`, bare or with a `:<port>` suffix (IPv6 in bracket notation), the
port being nonempty and colon-free. -/
def loopbackLikeListed (h : String) : Prop :=
  h = "localhost" ∨ h = "127.0.0.1" ∨ h = "::1" ∨
  ∃ p : List Char, p ≠ [] ∧ ':' ∉ p ∧
    (h.data = "localhost".data ++ ':' :: p ∨
     h.data = "127.0.0.1".data ++ ':' :: p ∨
     h.data = "[::1]:".data ++ p)

/-- The loopback-like classification the Scheme Inferrer actually applies:
the host with its port stripped and its square brackets removed is exactly
`localhost`, `127.0.0.1` or `::1`. -/
def loopbackLikeStripped (h : String) : Prop :=
  isLoopbackHost (stripBrackets ((splitHostPort h.data).getD h.data)) = true

/-! ## Endpoint Resolver (registryEndpoints) -/

/-- The remainder of a string after the first scheme separator `://`, or
`none` when the string carries no scheme.  Models the scheme detection of
Go's URL handling for registry endpoints. -/
def afterSchemeSep : List Char → Option (List Char)
  | [] => none
  | c :: rest =>
      if c = ':' ∧ rest.take 2 = ['/', '/'] then some (rest.drop 2)
      else afterSchemeSep rest

/-- Whether an endpoint string already carries an explicit scheme. -/
def hasScheme (e : String) : Bool := (afterSchemeSep e.data).isSome

/-- The host component of an endpoint or address: what follows the scheme
separator (if any), up to the first slash.  Ports are kept, trailing paths
are dropped. -/
def endpointHost (e : String) : String :=
  ⟨((afterSchemeSep e.data).getD e.data).takeWhile (fun c => c ≠ '/')⟩

/-- A mirror configuration entry: the ordered endpoint list configured for
one registry host. -/
structure Mirror where
  endpoints : List String
deriving DecidableEq

/-- A mirror configuration table, keyed by registry host or by the wildcard
marker `*`. -/
abbrev MirrorConfig := List (String × Mirror)

/-- Modelled from the spec: the mirror list selected for a target host — the
host-specific entry if present, else the wildcard entry, else empty. -/
def mirrorsFor (ms : MirrorConfig) (host : String) : List String :=
  match ms.lookup host with
  | some m => m.endpoints
  | none =>
      match ms.lookup "*" with
      | some m => m.endpoints
      | none => []

/-- Modelled from the spec: normalization of a single mirror endpoint — an
entry with a scheme is kept as-is, a scheme-less entry gets the scheme the
Scheme Inferrer assigns to the entry's own host. -/
def normalizeEndpoint (e : String) : String :=
  if hasScheme e then e else defaultScheme (endpointHost e) ++ "://" ++ e

/-- The canonical endpoint for a host: its inferred scheme, `://`, the host. -/
def canonicalEndpoint (host : String) : String :=
  defaultScheme host ++ "://" ++ host

/-- Modelled from the spec: `registryEndpoints` (implementation absent from
the given sources, pinned by `TestRegistryEndpoints`).  Normalize the
selected mirror list in configured order, then append the canonical
endpoint for the target host unless some normalized entry already has that
host as its host component (ignoring scheme and trailing path).  The spec's
rejection of unparseable mirror entries is not modelled: the model's URL
splitting is total, and no endpoint string in scope fails Go's URL parser. -/
def registryEndpoints (host : String) (ms : MirrorConfig) : List String :=
  let es := (mirrorsFor ms host).map normalizeEndpoint
  if es.any (fun e => endpointHost e == host) then es
  else es ++ [canonicalEndpoint host]

/-! ## Credential Resolver (ParseAuth) -/

/-- The value of a standard base64 alphabet character. -/
def b64Val (c : Char) : Option Nat :=
  if 'A' ≤ c ∧ c ≤ 'Z' then some (c.toNat - 65)
  else if 'a' ≤ c ∧ c ≤ 'z' then some (c.toNat - 97 + 26)
  else if '0' ≤ c ∧ c ≤ '9' then some (c.toNat - 48 + 52)
  else if c = '+' then some 62
  else if c = '/' then some 63
  else none

/-- Standard base64 decoding of a character stream into bytes: four-character
blocks produce three bytes, a final block may carry one or two `=` padding
characters. -/
def b64DecodeChunks : List Char → Option (List Nat)
  | [] => some []
  | c1 :: c2 :: c3 :: c4 :: rest => do
      let v1 ← b64Val c1
      let v2 ← b64Val c2
      if c3 = '=' then
        if c4 = '=' ∧ rest = [] then some [v1 * 4 + v2 / 16]
        else none
      else do
        let v3 ← b64Val c3
        if c4 = '=' then
          if rest = [] then some [v1 * 4 + v2 / 16, v2 % 16 * 16 + v3 / 4]
          else none
        else do
          let v4 ← b64Val c4
          let bytes ← b64DecodeChunks rest
          some ((v1 * 4 + v2 / 16) :: (v2 % 16 * 16 + v3 / 4) :: (v3 % 4 * 64 + v4) :: bytes)
  | _ => none

/-- Base64-decode a string into the string its bytes spell. -/
def base64Decode (s : String) : Option String :=
  (b64DecodeChunks s.data).map (fun bs => ⟨bs.map Char.ofNat⟩)

/-- The structured auth payload of a pull request; empty strings stand for
absent fields, as in the wire form. -/
structure AuthConfig where
  username : String := ""
  password : String := ""
  auth : String := ""
  serverAddress : String := ""
  identityToken : String := ""
deriving DecidableEq

/-- Modelled from the spec: `ParseAuth` (implementation absent from the
given sources, pinned by `TestParseAuth`).  A nil payload yields empty
credentials; a scoping server address whose host differs from the requested
host yields empty credentials silently; otherwise an identity token is
returned as the secret, else a populated combined auth blob is
base64-decoded and split at its first colon (no colon is an error), else
the username/password pair is passed through. -/
def parseAuth (auth : Option AuthConfig) (host : String) :
    Except String (String × String) :=
  match auth with
  | none => .ok ("", "")
  | some a =>
      if a.serverAddress ≠ "" ∧ endpointHost a.serverAddress ≠ host then .ok ("", "")
      else if a.identityToken ≠ "" then .ok ("", a.identityToken)
      else if a.auth ≠ "" then
        match base64Decode a.auth with
        | none => .error "failed to decode auth"
        | some decoded =>
            if ':' ∈ decoded.data then
              .ok (⟨decoded.data.takeWhile (fun c => c ≠ ':')⟩,
                   ⟨(decoded.data.dropWhile (fun c => c ≠ ':')).tail⟩)
            else .error ("invalid decoded auth: " ++ decoded)
      else .ok (a.username, a.password)

/-! ## Snapshotter Selector (snapshotterFromPodSandboxConfig) -/

/-- The pod annotation key naming the runtime handler. -/
def runtimeHandlerKey : String := "io.kubernetes.cri.runtime-handler"

/-- A named runtime configuration record; only the snapshotter override
matters here. -/
structure RuntimeConfig where
  snapshotter : String := ""
deriving DecidableEq

/-- A pod sandbox configuration: its annotation table, which may be absent
altogether (a nil map). -/
structure PodSandboxConfig where
  annots : Option (List (String × String)) := none
deriving DecidableEq

/-- Modelled from the spec: `snapshotterFromPodSandboxConfig`
(implementation absent from the given sources, pinned by
`TestSnapshotterFromPodSandboxConfig`).  A nil config, nil/empty annotation
table or absent runtime-handler annotation yields the default snapshotter;
an annotation naming an unregistered runtime is an error; a registered
runtime's non-empty snapshotter overrides the default. -/
def snapshotterFromPodSandboxConfig (cfg : Option PodSandboxConfig)
    (runtimes : List (String × RuntimeConfig)) (defaultSnapshotter : String) :
    Except String String :=
  match cfg with
  | none => .ok defaultSnapshotter
  | some c =>
      match c.annots with
      | none => .ok defaultSnapshotter
      | some anns =>
          match anns.lookup runtimeHandlerKey with
          | none => .ok defaultSnapshotter
          | some handler =>
              match runtimes.lookup handler with
              | none => .error ("failed to get sandbox runtime for " ++ handler)
              | some r =>
                  .ok (if r.snapshotter = "" then defaultSnapshotter else r.snapshotter)

/-! ## Image Labeler (getLabels) -/

/-- The base managed-image label key. -/
def imageLabelKey : String := "io.cri-containerd.image"

/-- The base managed-image label value. -/
def imageLabelValue : String := "managed"

/-- The pinned-image label key. -/
def pinnedImageLabelKey : String := "io.cri-containerd.pinned"

/-- The pinned-image label value. -/
def pinnedImageLabelValue : String := "pinned"

/-- An image reference split into name, optional tag and optional digest
(empty strings for absent parts). -/
structure ParsedRef where
  name : String
  tag : String
  digest : String
deriving DecidableEq

/-- Modelled from the spec: splitting an image reference `name[:tag][@digest]`.
The digest is what follows the first `@`; the tag is what follows the last
colon of the remainder provided that colon comes after the last slash (so a
registry port is not mistaken for a tag). -/
def parseImageRef (s : String) : ParsedRef :=
  let cs := s.data
  let base := cs.takeWhile (fun c => c ≠ '@')
  let dg := (cs.dropWhile (fun c => c ≠ '@')).tail
  let rev := base.reverse
  let cand := rev.takeWhile (fun c => c ≠ ':' ∧ c ≠ '/')
  if (rev.drop cand.length).head? = some ':' then
    { name := ⟨(rev.drop (cand.length + 1)).reverse⟩, tag := ⟨cand.reverse⟩,
      digest := ⟨dg⟩ }
  else
    { name := ⟨base⟩, tag := "", digest := ⟨dg⟩ }

/-- A missing tag defaults to `latest`. -/
def normalizeTag (t : String) : String := if t = "" then "latest" else t

/-- Modelled from the spec: whether two image references denote the same
image identity — by digest when both carry one, else by name and
tag-defaulted-to-latest. -/
def sameImageIdentity (a b : String) : Bool :=
  let pa := parseImageRef a
  let pb := parseImageRef b
  if pa.digest ≠ "" ∧ pb.digest ≠ "" then pa.digest == pb.digest
  else pa.name == pb.name && (normalizeTag pa.tag == normalizeTag pb.tag)

/-- Modelled from the spec: `getLabels` (implementation absent from the
given sources, pinned by `TestImageGetLabels`): the base managed-image
label always, plus the pinned-image label when the pulled reference denotes
the configured sandbox image. -/
def getLabels (sandboxImage pulledRef : String) : List (String × String) :=
  if sameImageIdentity sandboxImage pulledRef then
    [(imageLabelKey, imageLabelValue), (pinnedImageLabelKey, pinnedImageLabelValue)]
  else
    [(imageLabelKey, imageLabelValue)]

/-! ## Image Status Assembler (ImageStatus, toCRIImage, toCRIImageInfo) -/

/-- Modelled from the spec: the image runtime configuration carried by the
decoded image spec, reduced to the configured run-as user (the only field
the core reads). -/
structure ImageConfig where
  user : String := ""
deriving DecidableEq, Inhabited

/-- Modelled from the spec: the decoded image spec (an external library
type), reduced to a representative subset of its fields. -/
structure ImageSpec where
  architecture : String := ""
  os : String := ""
  config : ImageConfig := default
deriving DecidableEq, Inhabited

/-- The internal record of a stored image, as read from the image store. -/
structure Image where
  id : String
  references : List String := []
  size : Int := 0
  imageSpec : ImageSpec := default
  chainID : String := ""
  pinned : Bool := false
deriving DecidableEq

/-- Modelled from the spec: `parseImageReferences` (implementation not among
the given sources) — references carrying a digest are repo digests,
references carrying a tag are repo tags. -/
def parseImageReferences (refs : List String) : List String × List String :=
  (refs.filter (fun r => (parseImageRef r).digest = "" && (parseImageRef r).tag ≠ ""),
   refs.filter (fun r => (parseImageRef r).digest ≠ ""))

/-- Modelled from the spec: `getUserFromImage` (implementation not among the
given sources) — the part of the run-as user before any colon becomes the
numeric UID if it is all digits, the username otherwise; never both. -/
def getUserFromImage (user : String) : Option Int × String :=
  if user = "" then (none, "")
  else
    let first := user.data.takeWhile (fun c => c ≠ ':')
    if first ≠ [] ∧ first.all (fun c => c.isDigit) then
      (some ((Nat.ofDigits 10 ((first.map (fun c => c.toNat - 48)).reverse) : Nat) : Int), "")
    else (none, ⟨first⟩)

/-- The externally reported image descriptor. -/
structure RuntimeImage where
  id : String
  repoTags : List String
  repoDigests : List String
  size : Nat
  uid : Option Int
  username : String
  pinned : Bool
deriving DecidableEq

/-- `toCRIImage`: the internal image record converted to the externally
reported descriptor. -/
def toCRIImage (img : Image) : RuntimeImage :=
  let td := parseImageReferences img.references
  let uu := getUserFromImage img.imageSpec.config.user
  { id := img.id, repoTags := td.1, repoDigests := td.2, size := img.size.toNat,
    uid := uu.1, username := uu.2, pinned := img.pinned }

/-- The object marshalled into the verbose info map: chain ID and image
spec. -/
structure VerboseImageInfo where
  chainID : String
  imageSpec : ImageSpec
deriving DecidableEq

/-- `toCRIImageInfo`: nothing for a non-verbose request; otherwise an info
map whose "info" entry holds the marshalled chain ID and image spec, or the
marshalling error's text when marshalling fails — never an error return.
The JSON marshaller is an external collaborator and is passed in as a
function that may fail. -/
def toCRIImageInfo (marshal : VerboseImageInfo → Except String String)
    (img : Image) (verbose : Bool) :
    Except String (Option (List (String × String))) :=
  if !verbose then .ok none
  else
    let imi : VerboseImageInfo := ⟨img.chainID, img.imageSpec⟩
    match marshal imi with
    | .ok m => .ok (some [("info", m)])
    | .error e => .ok (some [("info", e)])

/-- The outcome of resolving an image reference in the local store
(`localResolve` is an external collaborator): found, not found, or a real
fault. -/
inductive ResolveOutcome where
  | found (img : Image)
  | notFound (msg : String)
  | fault (msg : String)
deriving DecidableEq

/-- The image status response: the descriptor and the optional info map,
both absent in the empty response. -/
structure ImageStatusResponse where
  image : Option RuntimeImage := none
  info : Option (List (String × String)) := none
deriving DecidableEq

/-- `ImageStatus`: a not-found resolution yields the empty response with no
error; any other resolution fault is wrapped and propagated; otherwise the
descriptor and info map are assembled. -/
def imageStatus (marshal : VerboseImageInfo → Except String String)
    (resolved : ResolveOutcome) (verbose : Bool) :
    Except String ImageStatusResponse :=
  match resolved with
  | .notFound _ => .ok {}
  | .fault e => .error ("can not resolve locally: " ++ e)
  | .found img =>
      match toCRIImageInfo marshal img verbose with
      | .error e => .error ("failed to generate image info: " ++ e)
      | .ok info => .ok { image := some (toCRIImage img), info := info }

/-! ## JSON marshalling model for the verbose info round trip -/

/-- JSON string escaping (model of the external JSON library): quote and
backslash are escaped with a backslash. -/
def escapeJson : List Char → List Char
  | [] => []
  | c :: cs => (if c = '"' ∨ c = '\\' then ['\\', c] else [c]) ++ escapeJson cs

/-- The JSON text of the verbose image info object — the chain ID followed
by the image spec object, with the field names of the wire form; string
values are escaped and quoted. -/
def marshalVerboseImageInfo (v : VerboseImageInfo) : String :=
  ⟨"\x7b\"chainID\":\"".data ++ escapeJson v.chainID.data ++ '"' ::
    (",\"imageSpec\":\x7b\"architecture\":\"".data ++
      escapeJson v.imageSpec.architecture.data ++ '"' ::
      (",\"os\":\"".data ++ escapeJson v.imageSpec.os.data ++ '"' ::
        (",\"config\":\x7b\"User\":\"".data ++
          escapeJson v.imageSpec.config.user.data ++ '"' ::
          "\x7d\x7d\x7d".data)))⟩

/-- Parse a JSON string literal body up to its closing quote, undoing the
escaping; returns the content and the rest of the input. -/
def parseStringLit : List Char → Option (List Char × List Char)
  | [] => none
  | c :: rest =>
      if c = '"' then some ([], rest)
      else if c = '\\' then
        match rest with
        | [] => none
        | d :: rest2 => (parseStringLit rest2).map (fun sr => (d :: sr.1, sr.2))
      else (parseStringLit rest).map (fun sr => (c :: sr.1, sr.2))

/-- Consume an expected literal prefix. -/
def expectLit : List Char → List Char → Option (List Char)
  | [], cs => some cs
  | _ :: _, [] => none
  | l :: ls, c :: cs => if c = l then expectLit ls cs else none

/-- Deserialize the verbose image info JSON text. -/
def parseVerboseImageInfo (s : String) : Option VerboseImageInfo := do
  let r1 ← expectLit "\x7b\"chainID\":\"".data s.data
  let (cid, r2) ← parseStringLit r1
  let r3 ← expectLit ",\"imageSpec\":\x7b\"architecture\":\"".data r2
  let (arch, r4) ← parseStringLit r3
  let r5 ← expectLit ",\"os\":\"".data r4
  let (osv, r6) ← parseStringLit r5
  let r7 ← expectLit ",\"config\":\x7b\"User\":\"".data r6
  let (user, r8) ← parseStringLit r7
  let r9 ← expectLit "\x7d\x7d\x7d".data r8
  if r9 = [] then
    some ⟨⟨cid⟩, { architecture := ⟨arch⟩, os := ⟨osv⟩, config := { user := ⟨user⟩ } }⟩
  else none

/-! Test vectors of `TestDefaultScheme` re-checked against the model. -/

example : defaultScheme "localhost" = "http" := by decide
example : defaultScheme "localhost:8080" = "http" := by decide
example : defaultScheme "127.0.0.1" = "http" := by decide
example : defaultScheme "127.0.0.1:8080" = "http" := by decide
example : defaultScheme "::1" = "http" := by decide
example : defaultScheme "[::1]:8080" = "http" := by decide
example : defaultScheme "remote" = "https" := by decide
example : defaultScheme "remote:8080" = "https" := by decide
example : defaultScheme "8.8.8.8" = "https" := by decide
example : defaultScheme "8.8.8.8:8080" = "https" := by decide


theorem takeWhile_ne_append (l p : List Char) (c : Char) (hl : ∀ d ∈ l, d ≠ c) :
    (l ++ c :: p).takeWhile (fun d => d ≠ c) = l := by
  induction l with
  | nil => exact List.takeWhile_cons_of_neg (by simp)
  | cons a l ih =>
      rw [List.cons_append, List.takeWhile_cons_of_pos (by simp [hl a (by simp)]),
        ih (fun d hd => hl d (by simp [hd]))]

theorem splitHostPort_localhost (p : List Char) (hp : ':' ∉ p) :
    splitHostPort ("localhost".data ++ ':' :: p) = some "localhost".data := by
  have e : "localhost".data = ['l', 'o', 'c', 'a', 'l', 'h', 'o', 's', 't'] := rfl
  rw [e]
  show splitHostPort ('l' :: (['o', 'c', 'a', 'l', 'h', 'o', 's', 't'] ++ ':' :: p)) = _
  rw [splitHostPort]
  case x_1 => intro rest h; simp at h
  have hc : (('l' :: (['o', 'c', 'a', 'l', 'h', 'o', 's', 't'] ++ ':' :: p)).count ':') = 1 := by
    simp [List.count_append, List.count_cons, List.count_eq_zero.2 hp]
  rw [if_pos hc]
  have := takeWhile_ne_append ['l', 'o', 'c', 'a', 'l', 'h', 'o', 's', 't'] p ':' (by decide)
  simp only [List.cons_append] at this ⊢
  rw [this]

theorem splitHostPort_loop4 (p : List Char) (hp : ':' ∉ p) :
    splitHostPort ("127.0.0.1".data ++ ':' :: p) = some "127.0.0.1".data := by
  have e : "127.0.0.1".data = ['1', '2', '7', '.', '0', '.', '0', '.', '1'] := rfl
  rw [e]
  show splitHostPort ('1' :: (['2', '7', '.', '0', '.', '0', '.', '1'] ++ ':' :: p)) = _
  rw [splitHostPort]
  case x_1 => intro rest h; simp at h
  have hc : (('1' :: (['2', '7', '.', '0', '.', '0', '.', '1'] ++ ':' :: p)).count ':') = 1 := by
    simp [List.count_append, List.count_cons, List.count_eq_zero.2 hp]
  rw [if_pos hc]
  have := takeWhile_ne_append ['1', '2', '7', '.', '0', '.', '0', '.', '1'] p ':' (by decide)
  simp only [List.cons_append] at this ⊢
  rw [this]

theorem splitHostPort_loop6 (p : List Char) (hp : ':' ∉ p) :
    splitHostPort ("[::1]:".data ++ p) = some "::1".data := by
  have e : "[::1]:".data ++ p = '[' :: (':' :: ':' :: '1' :: ']' :: ':' :: p) := rfl
  rw [e, splitHostPort]
  have ed : (':' :: ':' :: '1' :: ']' :: ':' :: p).dropWhile (fun c => c ≠ ']') =
      ']' :: ':' :: p := by
    simp [List.dropWhile_cons]
  rw [ed]
  simp [hp, List.takeWhile_cons]

/-- C7, amended: every host of one of the enumerated loopback-like shapes is
assigned "http"; in general the Scheme Inferrer assigns "http" exactly to
the hosts whose port-stripped, bracket-stripped remainder is `localhost`,
`127.0.0.1` or `::1` (which also admits bracketed loopback forms such as
`[localhost]:80`), and "https" to every other host. -/
theorem defaultScheme_loopback_characterization (h : String) :
    (loopbackLikeListed h → defaultScheme h = "http") ∧
    (defaultScheme h = "http" ↔ loopbackLikeStripped h) := by
  constructor
  · rintro (rfl | rfl | rfl | ⟨p, hne, hp, (hd | hd | hd)⟩)
    · decide
    · decide
    · decide
    · show (if isLoopbackHost (stripBrackets ((splitHostPort h.data).getD h.data))
          then "http" else "https") = "http"
      rw [hd, splitHostPort_localhost p hp, Option.getD_some]
      decide
    · show (if isLoopbackHost (stripBrackets ((splitHostPort h.data).getD h.data))
          then "http" else "https") = "http"
      rw [hd, splitHostPort_loop4 p hp, Option.getD_some]
      decide
    · show (if isLoopbackHost (stripBrackets ((splitHostPort h.data).getD h.data))
          then "http" else "https") = "http"
      rw [hd, splitHostPort_loop6 p hp, Option.getD_some]
      decide
  · unfold defaultScheme loopbackLikeStripped
    by_cases hc : isLoopbackHost (stripBrackets ((splitHostPort h.data).getD h.data)) = true
    · simp [hc]
    · simp [hc]

theorem defaultScheme_loopback_characterization_witness :
    defaultScheme "localhost:5000" = "http" :=
  (defaultScheme_loopback_characterization "localhost:5000").1
    (Or.inr (Or.inr (Or.inr ⟨['5', '0', '0', '0'], by decide, by decide, Or.inl rfl⟩)))

/-- Counterexample to C7 as stated: the host string `[localhost]:80` is not
one of the claim's enumerated loopback-like shapes, yet the Scheme Inferrer
assigns it "http", not "https". -/
theorem defaultScheme_claim7_counterexample :
    ¬ loopbackLikeListed "[localhost]:80" ∧
    defaultScheme "[localhost]:80" = "http" ∧
    defaultScheme "[localhost]:80" ≠ "https" := by
  refine ⟨?_, by decide, by decide⟩
  rintro (h | h | h | ⟨p, hne, hp, (hd | hd | hd)⟩)
  · exact absurd h (by decide)
  · exact absurd h (by decide)
  · exact absurd h (by decide)
  · have e1 : "[localhost]:80".data =
        ['[', 'l', 'o', 'c', 'a', 'l', 'h', 'o', 's', 't', ']', ':', '8', '0'] := rfl
    have e2 : "localhost".data = ['l', 'o', 'c', 'a', 'l', 'h', 'o', 's', 't'] := rfl
    rw [e1, e2] at hd
    simp at hd
  · have e1 : "[localhost]:80".data =
        ['[', 'l', 'o', 'c', 'a', 'l', 'h', 'o', 's', 't', ']', ':', '8', '0'] := rfl
    have e2 : "127.0.0.1".data = ['1', '2', '7', '.', '0', '.', '0', '.', '1'] := rfl
    rw [e1, e2] at hd
    simp at hd
  · have e1 : "[localhost]:80".data =
        ['[', 'l', 'o', 'c', 'a', 'l', 'h', 'o', 's', 't', ']', ':', '8', '0'] := rfl
    have e2 : "[::1]:".data = ['[', ':', ':', '1', ']', ':'] := rfl
    rw [e1, e2] at hd
    simp at hd


/-! ## General helpers -/

theorem data_mk (l : List Char) : (⟨l⟩ : String).data = l := rfl

theorem mk_data (s : String) : (⟨s.data⟩ : String) = s := rfl

theorem takeWhile_ne_all (l : List Char) (c : Char) (h : c ∉ l) :
    l.takeWhile (fun d => d ≠ c) = l := by
  induction l with
  | nil => rfl
  | cons a t ih =>
      have ha : a ≠ c := fun e => h (by simp [e])
      rw [List.takeWhile_cons_of_pos (by simp [ha]),
        ih (fun hc => h (List.mem_cons_of_mem a hc))]

theorem dropWhile_ne_append (l p : List Char) (c : Char) (hl : ∀ d ∈ l, d ≠ c) :
    (l ++ c :: p).dropWhile (fun d => d ≠ c) = c :: p := by
  induction l with
  | nil => exact List.dropWhile_cons_of_neg (by simp)
  | cons a t ih =>
      rw [List.cons_append, List.dropWhile_cons_of_pos (by simp [hl a (by simp)]),
        ih (fun d hd => hl d (by simp [hd]))]

/-! ## Endpoint Resolver: claims C1 and C3 -/

theorem afterSchemeSep_append (sch rest : List Char) (h : ':' ∉ sch) :
    afterSchemeSep (sch ++ ':' :: '/' :: '/' :: rest) = some rest := by
  induction sch with
  | nil =>
      rw [List.nil_append, afterSchemeSep]
      simp
  | cons a t ih =>
      have ha : a ≠ ':' := fun e => h (by simp [e])
      rw [List.cons_append, afterSchemeSep, if_neg (by simp [ha]),
        ih (fun hc => h (List.mem_cons_of_mem a hc))]

theorem endpointHost_of_scheme (sch hst : String) (hs : ':' ∉ sch.data)
    (hh : '/' ∉ hst.data) : endpointHost (sch ++ "://" ++ hst) = hst := by
  have e0 : "://".data = ':' :: '/' :: '/' :: ([] : List Char) := rfl
  have e : (sch ++ "://" ++ hst).data = sch.data ++ ':' :: '/' :: '/' :: hst.data := by
    rw [String.data_append, String.data_append, e0]
    simp
  unfold endpointHost
  rw [e, afterSchemeSep_append _ _ hs, Option.getD_some, takeWhile_ne_all _ _ hh, mk_data]

theorem endpointHost_of_scheme_path (sch hst pth : String) (hs : ':' ∉ sch.data)
    (hh : '/' ∉ hst.data) : endpointHost (sch ++ "://" ++ hst ++ "/" ++ pth) = hst := by
  have e0 : "://".data = ':' :: '/' :: '/' :: ([] : List Char) := rfl
  have e1 : "/".data = '/' :: ([] : List Char) := rfl
  have e : (sch ++ "://" ++ hst ++ "/" ++ pth).data =
      sch.data ++ ':' :: '/' :: '/' :: (hst.data ++ '/' :: pth.data) := by
    rw [String.data_append, String.data_append, String.data_append, String.data_append,
      e0, e1]
    simp
  unfold endpointHost
  rw [e, afterSchemeSep_append _ _ hs, Option.getD_some,
    takeWhile_ne_append hst.data pth.data '/' (fun d hd he => hh (he ▸ hd))]

/-- C1: the Endpoint Resolver returns the configured mirror endpoints first,
in configured order, scheme-less entries normalized with the scheme the
Scheme Inferrer assigns to the entry's own host, and appends the canonical
endpoint `scheme://host` at the end exactly when no mirror entry already
has `host` as its host component, the comparison ignoring the entry's
scheme and trailing path. -/
theorem registryEndpoints_mirrors_first_then_canonical (host : String) (ms : MirrorConfig) :
    registryEndpoints host ms =
      (mirrorsFor ms host).map normalizeEndpoint ++
        (if ((mirrorsFor ms host).map normalizeEndpoint).any
            (fun e => endpointHost e == host) then [] else [canonicalEndpoint host]) ∧
    (∀ e, hasScheme e = true → normalizeEndpoint e = e) ∧
    (∀ e, hasScheme e = false →
      normalizeEndpoint e = defaultScheme (endpointHost e) ++ "://" ++ e) ∧
    (∀ sch hst pth : String, ':' ∉ sch.data → '/' ∉ hst.data →
      endpointHost (sch ++ "://" ++ hst) = hst ∧
      endpointHost (sch ++ "://" ++ hst ++ "/" ++ pth) = hst) := by
  refine ⟨?_, ?_, ?_, ?_⟩
  · unfold registryEndpoints
    by_cases h : ((mirrorsFor ms host).map normalizeEndpoint).any
        (fun e => endpointHost e == host) <;> simp [h]
  · intro e he
    simp [normalizeEndpoint, he]
  · intro e he
    simp [normalizeEndpoint, he]
  · intro sch hst pth hs hh
    exact ⟨endpointHost_of_scheme sch hst hs hh, endpointHost_of_scheme_path sch hst pth hs hh⟩

theorem registryEndpoints_mirrors_first_then_canonical_witness :
    normalizeEndpoint "127.0.0.1:1234" = "http://127.0.0.1:1234" ∧
    endpointHost ("https" ++ "://" ++ "registry-3.io" ++ "/" ++ "path") = "registry-3.io" :=
  ⟨(registryEndpoints_mirrors_first_then_canonical "registry-3.io" []).2.2.1
      "127.0.0.1:1234" (by decide),
   ((registryEndpoints_mirrors_first_then_canonical "registry-3.io" []).2.2.2
      "https" "registry-3.io" "path" (by decide) (by decide)).2⟩

/-- C3: when both a host-specific and a wildcard mirror entry exist for a
target host, only the host-specific entry's endpoints are used — resolution
is identical to a configuration holding the host-specific entry alone; the
wildcard entry's endpoints are used exactly when no host-specific entry
exists; with neither entry only the canonical endpoint results. -/
theorem registryEndpoints_host_overrides_wildcard (host : String) (ms : MirrorConfig) :
    (∀ m, ms.lookup host = some m →
      registryEndpoints host ms = registryEndpoints host [(host, m)]) ∧
    (ms.lookup host = none → ∀ w, ms.lookup "*" = some w →
      registryEndpoints host ms = registryEndpoints host [("*", w)]) ∧
    (ms.lookup host = none → ms.lookup "*" = none →
      registryEndpoints host ms = [canonicalEndpoint host]) := by
  refine ⟨?_, ?_, ?_⟩
  · intro m hm
    unfold registryEndpoints mirrorsFor
    rw [hm]
    simp [List.lookup]
  · intro hn w hw
    unfold registryEndpoints mirrorsFor
    rw [hn, hw]
    by_cases hstar : host = "*"
    · subst hstar
      simp [List.lookup]
    · have hb : (host == "*") = false := beq_eq_false_iff_ne.2 hstar
      simp [List.lookup, hb]
  · intro hn hw
    unfold registryEndpoints mirrorsFor
    rw [hn, hw]
    simp

theorem registryEndpoints_host_overrides_wildcard_witness :
    registryEndpoints "registry-3.io"
        [("*", ⟨["https://registry-1.io"]⟩), ("registry-3.io", ⟨["https://registry-2.io"]⟩)] =
      registryEndpoints "registry-3.io" [("registry-3.io", ⟨["https://registry-2.io"]⟩)] :=
  (registryEndpoints_host_overrides_wildcard "registry-3.io"
      [("*", ⟨["https://registry-1.io"]⟩), ("registry-3.io", ⟨["https://registry-2.io"]⟩)]).1
    ⟨["https://registry-2.io"]⟩ (by decide)

/-! Test vectors of `TestRegistryEndpoints` re-checked against the model. -/

example : registryEndpoints "registry-3.io"
    [("registry-1.io", ⟨["https://registry-1.io", "https://registry-2.io"]⟩)] =
    ["https://registry-3.io"] := by decide

example : registryEndpoints "registry-3.io"
    [("registry-3.io", ⟨["https://registry-1.io", "https://registry-2.io"]⟩)] =
    ["https://registry-1.io", "https://registry-2.io", "https://registry-3.io"] := by decide

example : registryEndpoints "registry-3.io"
    [("*", ⟨["https://registry-1.io", "https://registry-2.io"]⟩)] =
    ["https://registry-1.io", "https://registry-2.io", "https://registry-3.io"] := by decide

example : registryEndpoints "registry-3.io"
    [("*", ⟨["https://registry-1.io"]⟩), ("registry-3.io", ⟨["https://registry-2.io"]⟩)] =
    ["https://registry-2.io", "https://registry-3.io"] := by decide

example : registryEndpoints "registry-3.io"
    [("registry-3.io",
      ⟨["https://registry-1.io", "https://registry-2.io", "http://registry-3.io"]⟩)] =
    ["https://registry-1.io", "https://registry-2.io", "http://registry-3.io"] := by decide

example : registryEndpoints "registry-3.io"
    [("registry-3.io",
      ⟨["https://registry-1.io", "https://registry-2.io", "https://registry-3.io"]⟩)] =
    ["https://registry-1.io", "https://registry-2.io", "https://registry-3.io"] := by decide

example : registryEndpoints "registry-3.io"
    [("registry-3.io",
      ⟨["https://registry-1.io", "https://registry-2.io", "https://registry-3.io/path"]⟩)] =
    ["https://registry-1.io", "https://registry-2.io", "https://registry-3.io/path"] := by decide

example : registryEndpoints "registry-3.io"
    [("registry-3.io", ⟨["https://registry-3.io", "registry-1.io", "127.0.0.1:1234"]⟩)] =
    ["https://registry-3.io", "https://registry-1.io", "http://127.0.0.1:1234"] := by decide


/-! ## Credential Resolver: claims C2 and C8 -/

/-- C2: a payload scoped to a server address whose host differs from the
requested host resolves to empty credentials with no error, whatever
credentials it carries; with a matching server address or none at all the
payload resolves exactly as the same payload without scoping, in
particular passing a username/password pair through unchanged. -/
theorem parseAuth_host_scoping (a : AuthConfig) (host : String) :
    (a.serverAddress ≠ "" → endpointHost a.serverAddress ≠ host →
      parseAuth (some a) host = .ok ("", "")) ∧
    (a.serverAddress = "" ∨ endpointHost a.serverAddress = host →
      parseAuth (some a) host = parseAuth (some { a with serverAddress := "" }) host) ∧
    (a.serverAddress = "" ∨ endpointHost a.serverAddress = host →
      a.identityToken = "" → a.auth = "" →
      parseAuth (some a) host = .ok (a.username, a.password)) := by
  refine ⟨?_, ?_, ?_⟩
  · intro h1 h2
    simp [parseAuth, h1, h2]
  · rintro (h | h)
    · simp [parseAuth, h]
    · simp [parseAuth, h]
  · rintro (h | h) ht hb
    · simp [parseAuth, h, ht, hb]
    · simp [parseAuth, h, ht, hb]

theorem parseAuth_host_scoping_witness :
    parseAuth
      (some { username := "username", password := "password", serverAddress := "https://registry-1.io" })
      "registry-2.io" = .ok ("", "") :=
  (parseAuth_host_scoping
      { username := "username", password := "password", serverAddress := "https://registry-1.io" }
      "registry-2.io").1 (by decide) (by decide)

/-- C8: with a populated combined auth blob (and no identity token or
scoping address diverting resolution), the Credential Resolver
base64-decodes the blob; if the decoded text splits as `u:v` at its first
colon the result is username `u` and secret `v`; if the decoded text has
no colon, or the blob is not valid base64, an error is returned. -/
theorem parseAuth_blob_decode (a : AuthConfig) (host : String)
    (hs : a.serverAddress = "") (ht : a.identityToken = "") (hb : a.auth ≠ "") :
    (∀ decoded : String, base64Decode a.auth = some decoded →
      (∀ u v : List Char, decoded.data = u ++ ':' :: v → ':' ∉ u →
        parseAuth (some a) host = .ok (⟨u⟩, ⟨v⟩)) ∧
      (':' ∉ decoded.data → ∃ e, parseAuth (some a) host = .error e)) ∧
    (base64Decode a.auth = none → ∃ e, parseAuth (some a) host = .error e) := by
  constructor
  · intro decoded hdec
    constructor
    · intro u v hsplit hu
      have hmem : ':' ∈ decoded.data := by
        rw [hsplit]
        exact List.mem_append_right _ (List.mem_cons_self _ _)
      simp only [parseAuth]
      rw [if_neg (by simp [hs]), if_neg (by simp [ht]), if_pos hb, hdec]
      dsimp only
      rw [if_pos hmem, hsplit,
        takeWhile_ne_append u v ':' (fun d hd he => hu (he ▸ hd)),
        dropWhile_ne_append u v ':' (fun d hd he => hu (he ▸ hd)), List.tail_cons]
    · intro hnc
      simp only [parseAuth]
      rw [if_neg (by simp [hs]), if_neg (by simp [ht]), if_pos hb, hdec]
      dsimp only
      rw [if_neg hnc]
      exact ⟨_, rfl⟩
  · intro hdec
    simp only [parseAuth]
    rw [if_neg (by simp [hs]), if_neg (by simp [ht]), if_pos hb, hdec]
    exact ⟨_, rfl⟩

theorem parseAuth_blob_decode_witness :
    parseAuth (some { auth := "dXNlcjpwYXNz" }) "registry-1.io" = .ok ("user", "pass") :=
  ((parseAuth_blob_decode { auth := "dXNlcjpwYXNz" } "registry-1.io" rfl rfl
      (by decide)).1 "user:pass" (by decide)).1 "user".data "pass".data
    (by decide) (by decide)

/-! Test vectors of `TestParseAuth` re-checked against the model
(`dXNlcm5hbWU6cGFzc3dvcmQ=` is base64 of `username:password`,
`dXNlcm5hbWVAcGFzc3dvcmQ=` of `username@password`). -/

example : parseAuth none "" = .ok ("", "") := rfl
example : parseAuth (some {}) "" = .ok ("", "") := rfl
example : parseAuth (some { identityToken := "abcd" }) "" = .ok ("", "abcd") := rfl
example : parseAuth (some { username := "username", password := "password" }) "" =
    .ok ("username", "password") := rfl
example : parseAuth (some { auth := "dXNlcm5hbWU6cGFzc3dvcmQ=" }) "" =
    .ok ("username", "password") := rfl
example : parseAuth (some { auth := "dXNlcm5hbWVAcGFzc3dvcmQ=" }) "" =
    .error "invalid decoded auth: username@password" := rfl
example : parseAuth
    (some { username := "username", password := "password", serverAddress := "https://registry-1.io" })
    "registry-2.io" = .ok ("", "") := rfl
example : parseAuth
    (some { username := "username", password := "password", serverAddress := "https://registry-1.io" })
    "registry-1.io" = .ok ("username", "password") := rfl
example : parseAuth (some { username := "username", password := "password" })
    "registry-1.io" = .ok ("username", "password") := rfl

/-! ## Snapshotter Selector: claim C4 -/

/-- C4: a nil pod sandbox config, a nil or empty annotation table, or an
absent runtime-handler annotation all yield the default snapshotter with no
error; an annotation naming an unregistered runtime handler is an error; a
registered handler whose record sets a non-empty snapshotter yields that
snapshotter. -/
theorem snapshotterFromPodSandboxConfig_selection (cfg : Option PodSandboxConfig)
    (runtimes : List (String × RuntimeConfig)) (dflt : String) :
    (cfg = none → snapshotterFromPodSandboxConfig cfg runtimes dflt = .ok dflt) ∧
    (∀ c, cfg = some c → c.annots = none →
      snapshotterFromPodSandboxConfig cfg runtimes dflt = .ok dflt) ∧
    (∀ c, cfg = some c → c.annots = some [] →
      snapshotterFromPodSandboxConfig cfg runtimes dflt = .ok dflt) ∧
    (∀ c anns, cfg = some c → c.annots = some anns →
      anns.lookup runtimeHandlerKey = none →
      snapshotterFromPodSandboxConfig cfg runtimes dflt = .ok dflt) ∧
    (∀ c anns handler, cfg = some c → c.annots = some anns →
      anns.lookup runtimeHandlerKey = some handler →
      runtimes.lookup handler = none →
      ∃ e, snapshotterFromPodSandboxConfig cfg runtimes dflt = .error e) ∧
    (∀ c anns handler r, cfg = some c → c.annots = some anns →
      anns.lookup runtimeHandlerKey = some handler →
      runtimes.lookup handler = some r → r.snapshotter ≠ "" →
      snapshotterFromPodSandboxConfig cfg runtimes dflt = .ok r.snapshotter) := by
  refine ⟨?_, ?_, ?_, ?_, ?_, ?_⟩
  · intro h
    subst h
    rfl
  · intro c h1 h2
    subst h1
    simp [snapshotterFromPodSandboxConfig, h2]
  · intro c h1 h2
    subst h1
    simp [snapshotterFromPodSandboxConfig, h2, List.lookup]
  · intro c anns h1 h2 h3
    subst h1
    simp [snapshotterFromPodSandboxConfig, h2, h3]
  · intro c anns handler h1 h2 h3 h4
    subst h1
    simp [snapshotterFromPodSandboxConfig, h2, h3, h4]
  · intro c anns handler r h1 h2 h3 h4 h5
    subst h1
    simp [snapshotterFromPodSandboxConfig, h2, h3, h4, h5]

theorem snapshotterFromPodSandboxConfig_selection_witness :
    snapshotterFromPodSandboxConfig
      (some { annots := some [(runtimeHandlerKey, "exiting-runtime")] })
      [("exiting-runtime", { snapshotter := "devmapper" })] "native" = .ok "devmapper" :=
  (snapshotterFromPodSandboxConfig_selection
      (some { annots := some [(runtimeHandlerKey, "exiting-runtime")] })
      [("exiting-runtime", { snapshotter := "devmapper" })] "native").2.2.2.2.2
    { annots := some [(runtimeHandlerKey, "exiting-runtime")] }
    [(runtimeHandlerKey, "exiting-runtime")] "exiting-runtime"
    { snapshotter := "devmapper" } rfl rfl (by decide) (by decide) (by decide)

/-! Test vectors of `TestSnapshotterFromPodSandboxConfig` re-checked
against the model. -/

example : snapshotterFromPodSandboxConfig none
    [("exiting-runtime", { snapshotter := "devmapper" })] "native" = .ok "native" := rfl
example : snapshotterFromPodSandboxConfig (some {})
    [("exiting-runtime", { snapshotter := "devmapper" })] "native" = .ok "native" := rfl
example : snapshotterFromPodSandboxConfig (some { annots := some [] })
    [("exiting-runtime", { snapshotter := "devmapper" })] "native" = .ok "native" := rfl
example : snapshotterFromPodSandboxConfig
    (some { annots := some [(runtimeHandlerKey, "runtime-not-exists")] })
    [("exiting-runtime", { snapshotter := "devmapper" })] "native" =
    .error "failed to get sandbox runtime for runtime-not-exists" := rfl
example : snapshotterFromPodSandboxConfig
    (some { annots := some [(runtimeHandlerKey, "exiting-runtime")] })
    [("exiting-runtime", { snapshotter := "devmapper" })] "native" = .ok "devmapper" := rfl

/-! ## Image Labeler: claim C6 -/

/-- C6: the label set always contains the base managed-image label and
contains the pinned-image label exactly when the pulled reference denotes
the configured sandbox image; the identity comparison goes by digest when
both references carry one, else by name together with the tag defaulted to
`latest` when missing. -/
theorem getLabels_pinned_iff (sandbox pulled : String) :
    (imageLabelKey, imageLabelValue) ∈ getLabels sandbox pulled ∧
    ((pinnedImageLabelKey, pinnedImageLabelValue) ∈ getLabels sandbox pulled ↔
      sameImageIdentity sandbox pulled = true) ∧
    ((parseImageRef sandbox).digest ≠ "" → (parseImageRef pulled).digest ≠ "" →
      (sameImageIdentity sandbox pulled = true ↔
        (parseImageRef sandbox).digest = (parseImageRef pulled).digest)) ∧
    (((parseImageRef sandbox).digest = "" ∨ (parseImageRef pulled).digest = "") →
      (sameImageIdentity sandbox pulled = true ↔
        ((parseImageRef sandbox).name = (parseImageRef pulled).name ∧
          normalizeTag (parseImageRef sandbox).tag =
            normalizeTag (parseImageRef pulled).tag))) ∧
    normalizeTag "" = "latest" := by
  refine ⟨?_, ?_, ?_, ?_, rfl⟩
  · unfold getLabels
    by_cases h : sameImageIdentity sandbox pulled <;> simp [h]
  · unfold getLabels
    by_cases h : sameImageIdentity sandbox pulled <;> simp [h]
    decide
  · intro h1 h2
    simp [sameImageIdentity, h1, h2]
  · intro h
    rcases h with h | h <;>
      simp [sameImageIdentity, h, Bool.and_eq_true, beq_iff_eq]

theorem getLabels_pinned_iff_witness :
    (pinnedImageLabelKey, pinnedImageLabelValue) ∈
      getLabels "registry.k8s.io/pause" "registry.k8s.io/pause:latest" :=
  (getLabels_pinned_iff "registry.k8s.io/pause" "registry.k8s.io/pause:latest").2.1.mpr
    (by decide)

/-! Test vectors of `TestImageGetLabels` re-checked against the model. -/

example : getLabels "registry.k8s.io/pause:3.9" "registry.k8s.io/pause:3.9" =
    [(imageLabelKey, imageLabelValue), (pinnedImageLabelKey, pinnedImageLabelValue)] := by
  decide
example : getLabels "registry.k8s.io/pause" "registry.k8s.io/pause:latest" =
    [(imageLabelKey, imageLabelValue), (pinnedImageLabelKey, pinnedImageLabelValue)] := by
  decide
example : getLabels
    "registry.k8s.io/pause:3.9@sha256:7031c1b283388d2c2e09b57badb803c05ebed362dc88d84b480cc47f72a21097"
    "registry.k8s.io/pause@sha256:7031c1b283388d2c2e09b57badb803c05ebed362dc88d84b480cc47f72a21097" =
    [(imageLabelKey, imageLabelValue), (pinnedImageLabelKey, pinnedImageLabelValue)] := by
  decide
example : getLabels
    "registry.k8s.io/pause@sha256:7031c1b283388d2c2e09b57badb803c05ebed362dc88d84b480cc47f72a21097"
    "registry.k8s.io/pause@sha256:7031c1b283388d2c2e09b57badb803c05ebed362dc88d84b480cc47f72a21097" =
    [(imageLabelKey, imageLabelValue), (pinnedImageLabelKey, pinnedImageLabelValue)] := by
  decide
example : getLabels "registry.k8s.io/pause:3.9" "registry.k8s.io/random:latest" =
    [(imageLabelKey, imageLabelValue)] := by decide

/-! ## Image Status Assembler: claims C5, C9 and C10 -/

theorem expectLit_append (l r : List Char) : expectLit l (l ++ r) = some r := by
  induction l with
  | nil => rfl
  | cons a t ih => simp [expectLit, ih]

theorem expectLit_nil (cs : List Char) : expectLit [] cs = some cs := rfl

theorem expectLit_cons (a : Char) (ls cs : List Char) :
    expectLit (a :: ls) (a :: cs) = expectLit ls cs := by
  simp [expectLit]

theorem parseStringLit_escape (s rest : List Char) :
    parseStringLit (escapeJson s ++ '"' :: rest) = some (s, rest) := by
  induction s with
  | nil =>
      rw [escapeJson, List.nil_append, parseStringLit.eq_def]
      simp
  | cons a t ih =>
      by_cases ha : a = '"' ∨ a = '\\'
      · have he : escapeJson (a :: t) = '\\' :: a :: escapeJson t := by
          simp [escapeJson, ha]
        rw [he, List.cons_append, List.cons_append, parseStringLit.eq_def]
        simp [ih]
      · push_neg at ha
        have he : escapeJson (a :: t) = a :: escapeJson t := by
          simp [escapeJson, ha.1, ha.2]
        rw [he, List.cons_append, parseStringLit.eq_def]
        simp [ha.1, ha.2, ih]

/-- Deserializing the marshalled verbose info recovers the original object. -/
theorem parseVerboseImageInfo_marshal (v : VerboseImageInfo) :
    parseVerboseImageInfo (marshalVerboseImageInfo v) = some v := by
  rw [parseVerboseImageInfo, marshalVerboseImageInfo]
  dsimp only
  simp [expectLit_cons, expectLit_nil, parseStringLit_escape, mk_data]

/-- C5: a request whose image reference fails local resolution with a
not-found outcome yields the empty image status response and no error. -/
theorem imageStatus_notFound_empty (marshal : VerboseImageInfo → Except String String)
    (msg : String) (verbose : Bool) :
    imageStatus marshal (.notFound msg) verbose = .ok {} ∧
    ∀ e, imageStatus marshal (.notFound msg) verbose ≠ .error e :=
  ⟨rfl, fun _ h => Except.noConfusion h⟩

theorem imageStatus_notFound_empty_witness :
    imageStatus (fun v => .ok (marshalVerboseImageInfo v)) (.notFound "image not found")
      true = .ok {} :=
  (imageStatus_notFound_empty (fun v => .ok (marshalVerboseImageInfo v))
    "image not found" true).1

/-- C9: with verbose off the assembler produces no info map; with verbose
on, the "info" entry is the marshalled chain ID and image spec of the
supplied record, and deserializing it recovers exactly that chain ID and
image spec. -/
theorem toCRIImageInfo_roundtrip (img : Image) (verbose : Bool) :
    (verbose = false →
      toCRIImageInfo (fun v => .ok (marshalVerboseImageInfo v)) img verbose = .ok none) ∧
    (verbose = true →
      toCRIImageInfo (fun v => .ok (marshalVerboseImageInfo v)) img verbose =
        .ok (some [("info", marshalVerboseImageInfo ⟨img.chainID, img.imageSpec⟩)]) ∧
      parseVerboseImageInfo (marshalVerboseImageInfo ⟨img.chainID, img.imageSpec⟩) =
        some ⟨img.chainID, img.imageSpec⟩) := by
  constructor
  · intro h
    subst h
    rfl
  · intro h
    subst h
    exact ⟨rfl, parseVerboseImageInfo_marshal _⟩

theorem toCRIImageInfo_roundtrip_witness :
    parseVerboseImageInfo
      (marshalVerboseImageInfo
        ⟨"sha256:chain", { architecture := "amd64", os := "linux", config := { user := "0:0" } }⟩) =
      some ⟨"sha256:chain", { architecture := "amd64", os := "linux", config := { user := "0:0" } }⟩ :=
  ((toCRIImageInfo_roundtrip
      { id := "sha256:abc", chainID := "sha256:chain",
        imageSpec := { architecture := "amd64", os := "linux", config := { user := "0:0" } } }
      true).2 rfl).2

theorem toCRIImageInfo_isOk (marshal : VerboseImageInfo → Except String String)
    (img : Image) (verbose : Bool) :
    ∃ v, toCRIImageInfo marshal img verbose = .ok v := by
  cases verbose with
  | false => exact ⟨none, rfl⟩
  | true =>
      cases h : marshal ⟨img.chainID, img.imageSpec⟩ with
      | ok m => exact ⟨some [("info", m)], by simp [toCRIImageInfo, h]⟩
      | error e => exact ⟨some [("info", e)], by simp [toCRIImageInfo, h]⟩

/-- C10: the info assembler never returns an error — a marshalling failure
is stored as the error text in the map instead — so the branch of
ImageStatus that wraps an info-assembly error is unreachable. -/
theorem toCRIImageInfo_never_errors (marshal : VerboseImageInfo → Except String String)
    (img : Image) (verbose : Bool) :
    (∃ v, toCRIImageInfo marshal img verbose = .ok v) ∧
    (∀ resolved e, imageStatus marshal resolved verbose ≠
      .error ("failed to generate image info: " ++ e)) := by
  refine ⟨toCRIImageInfo_isOk marshal img verbose, ?_⟩
  intro resolved e h
  cases resolved with
  | notFound m => exact Except.noConfusion h
  | fault m =>
      injection h with hs
      have hd := congrArg String.data hs
      rw [String.data_append, String.data_append] at hd
      have e1 : "can not resolve locally: ".data =
          'c' :: "an not resolve locally: ".data := rfl
      have e2 : "failed to generate image info: ".data =
          'f' :: "ailed to generate image info: ".data := rfl
      rw [e1, e2, List.cons_append, List.cons_append] at hd
      injection hd with h1 _
      exact absurd h1 (by decide)
  | found i =>
      obtain ⟨v, hv⟩ := toCRIImageInfo_isOk marshal i verbose
      simp only [imageStatus] at h
      rw [hv] at h
      exact Except.noConfusion h

theorem toCRIImageInfo_never_errors_witness :
    ∃ v, toCRIImageInfo (fun _vi => Except.error "marshal failure") { id := "sha256:abc" }
      true = .ok v :=
  (toCRIImageInfo_never_errors (fun _vi => Except.error "marshal failure")
    { id := "sha256:abc" } true).1

end ContainerdCRI
